import Mathlib

/-
Verification of the Stokes-law separation calculator
(scripts/stokes_calculator.py) against its natural-language
specification.  Python floats are modelled as real numbers; `math.exp`
is `Real.exp`, `math.pi` is `Real.pi`, the float power `**` on a
positive base is `Real.rpow`, and Python's `round(x, n)` is modelled by
`roundTo n x` below (they agree away from exact midpoints of the
rounding grid).
-/

noncomputable section

open Real

/-- Feed stream properties (dataclass `FeedProperties`). -/
structure FeedProperties where
  water_fraction : ℝ
  oil_fraction : ℝ
  solids_fraction : ℝ
  water_density : ℝ
  oil_density : ℝ
  solids_density : ℝ
  oil_droplet_d50 : ℝ
  solids_d50 : ℝ
  oil_viscosity : ℝ
  viscosity_temp_coeff : ℝ
  emulsion_stability : ℝ
  interfacial_tension : ℝ
  demulsifier_dose : ℝ
  demulsifier_eff : ℝ
  flocculant_dose : ℝ
  flocculant_eff : ℝ
  max_packing_fraction : ℝ
  hindered_settling_exp : ℝ
  oil_sphericity : ℝ
  solids_sphericity : ℝ
  salinity : ℝ

/-- Centrifuge equipment configuration (dataclass `EquipmentConfig`). -/
structure EquipmentConfig where
  bowl_diameter : ℝ
  bowl_length : ℝ
  max_rpm : ℤ
  min_rpm : ℤ
  max_flow : ℝ

/-- Current operating conditions (dataclass `OperatingConditions`). -/
structure OperatingConditions where
  temperature : ℝ
  bowl_speed : ℝ
  feed_flow : ℝ

/-- Calculated separation results (dataclass `SeparationResults`). -/
structure SeparationResults where
  oil_efficiency : ℝ
  solids_efficiency : ℝ
  water_quality_ppm : ℝ
  g_force : ℝ
  residence_time : ℝ
  oil_settling_velocity : ℝ
  solids_settling_velocity : ℝ
  viscosity : ℝ

/-- Default `FeedProperties` record, fields in declaration order:
fractions 0.75/0.20/0.05, densities 1000/890/2650, D50s 25/80,
oil viscosity 50 with temperature coefficient 0.025, emulsion
stability 0.3, interfacial tension 25, demulsifier 50 ppm at 0.7,
flocculant 0 ppm at 0.8, max packing 0.64, Richardson-Zaki 4.65,
sphericities 1.0/0.8, salinity 35000. -/
def feedDefault : FeedProperties :=
  ⟨0.75, 0.20, 0.05, 1000, 890, 2650, 25, 80, 50, 0.025, 0.3, 25,
   50, 0.7, 0, 0.8, 0.64, 4.65, 1, 0.8, 35000⟩

/-- Default `EquipmentConfig`: bowl 400 mm x 1100 mm, rpm 1500..5000,
max flow 15 m³/h. -/
def equipmentDefault : EquipmentConfig := ⟨400, 1100, 5000, 1500, 15⟩

/-- Default `OperatingConditions`: 65 °C, 3500 RPM, 12 m³/h. -/
def conditionsDefault : OperatingConditions := ⟨65, 3500, 12⟩

/-- Gravitational acceleration constant `G` from the source. -/
def G : ℝ := 9.81

/-- Python `round(x, n)` on reals: round `x * 10^n` to the nearest
integer and scale back.  (Python uses round-half-even on floats; the
two agree except at exact midpoints, which no theorem below relies
on.) -/
def roundTo (n : ℕ) (x : ℝ) : ℝ := (round (x * 10 ^ n) : ℤ) / 10 ^ n

/-- `calculate_viscosity`: Arrhenius temperature correction applied to
the reference viscosity (converted from mPa·s to Pa·s).  The source's
optional argument `ref_temp = 25.0` is passed explicitly by every
caller below. -/
def calculate_viscosity (base_viscosity temp temp_coeff ref_temp : ℝ) : ℝ :=
  base_viscosity * 0.001 * Real.exp (temp_coeff * (ref_temp - temp) * 10)

/-- `calculate_stokes_velocity`: Stokes settling/rising velocity,
always returned as an absolute value. -/
def calculate_stokes_velocity (diameter_m density_diff viscosity g_accel sphericity : ℝ) : ℝ :=
  |diameter_m ^ (2 : ℕ) * density_diff * g_accel * sphericity / (18 * viscosity)|

/-- `calculate_hindered_settling`: Richardson-Zaki correction; returns
exactly 0 at or above the packing maximum. -/
def calculate_hindered_settling (stokes_velocity solids_fraction max_packing exponent : ℝ) : ℝ :=
  if max_packing ≤ solids_fraction then 0
  else stokes_velocity * (1 - solids_fraction / max_packing) ^ exponent

/-- `calculate_langmuir_coverage`: Langmuir isotherm surface coverage.
The source's default arguments `k = 0.05`, `q_max = 0.95` are passed
explicitly by callers below. -/
def calculate_langmuir_coverage (dose_ppm k q_max : ℝ) : ℝ :=
  if dose_ppm ≤ 0 then 0
  else min (k * dose_ppm / (1 + k * dose_ppm) * q_max) q_max

/-- Pipeline step 1: effective viscosity of the feed at the operating
temperature. -/
def pipeline_viscosity (f : FeedProperties) (c : OperatingConditions) : ℝ :=
  calculate_viscosity f.oil_viscosity c.temperature f.viscosity_temp_coeff 25

/-- Bowl radius in metres (`r = equipment.bowl_diameter / 2000`). -/
def bowl_radius (e : EquipmentConfig) : ℝ := e.bowl_diameter / 2000

/-- Pipeline step 2: centrifugal acceleration `omega * omega * r`. -/
def pipeline_g_accel (e : EquipmentConfig) (c : OperatingConditions) : ℝ :=
  (c.bowl_speed * 2 * Real.pi / 60) * (c.bowl_speed * 2 * Real.pi / 60) * bowl_radius e

/-- Pipeline step 2: dimensionless g-force `g_accel / G`. -/
def pipeline_g_force (e : EquipmentConfig) (c : OperatingConditions) : ℝ :=
  pipeline_g_accel e c / G

/-- Pipeline step 3: water density adjusted for salinity. -/
def water_density_adj (f : FeedProperties) : ℝ :=
  f.water_density + f.salinity * 0.0007

/-- Pipeline step 3: oil/water density difference. -/
def oil_water_delta_rho (f : FeedProperties) : ℝ :=
  water_density_adj f - f.oil_density

/-- Pipeline step 3: solids/water density difference. -/
def solids_water_delta_rho (f : FeedProperties) : ℝ :=
  f.solids_density - water_density_adj f

/-- Pipeline step 4: unhindered Stokes velocity of the oil phase. -/
def oil_v_stokes (f : FeedProperties) (e : EquipmentConfig) (c : OperatingConditions) : ℝ :=
  calculate_stokes_velocity (f.oil_droplet_d50 * 1e-6) (oil_water_delta_rho f)
    (pipeline_viscosity f c) (pipeline_g_accel e c) f.oil_sphericity

/-- Pipeline step 4: unhindered Stokes velocity of the solids phase. -/
def solids_v_stokes (f : FeedProperties) (e : EquipmentConfig) (c : OperatingConditions) : ℝ :=
  calculate_stokes_velocity (f.solids_d50 * 1e-6) (solids_water_delta_rho f)
    (pipeline_viscosity f c) (pipeline_g_accel e c) f.solids_sphericity

/-- Pipeline step 5: combined hindrance fraction
`solids_fraction + oil_fraction * 0.1`. -/
def total_solids (f : FeedProperties) : ℝ :=
  f.solids_fraction + f.oil_fraction * 0.1

/-- Pipeline step 5: hindered oil velocity. -/
def oil_v_hindered (f : FeedProperties) (e : EquipmentConfig) (c : OperatingConditions) : ℝ :=
  calculate_hindered_settling (oil_v_stokes f e c) (total_solids f)
    f.max_packing_fraction f.hindered_settling_exp

/-- Pipeline step 5: hindered solids velocity. -/
def solids_v_hindered (f : FeedProperties) (e : EquipmentConfig) (c : OperatingConditions) : ℝ :=
  calculate_hindered_settling (solids_v_stokes f e c) (total_solids f)
    f.max_packing_fraction f.hindered_settling_exp

/-- Pipeline step 6: bowl internal volume `pi * r * r * (length/1000)`. -/
def bowl_vol (e : EquipmentConfig) : ℝ :=
  Real.pi * bowl_radius e * bowl_radius e * (e.bowl_length / 1000)

/-- Pipeline step 6: volumetric feed flow in m³/s. -/
def flow_m3_s (c : OperatingConditions) : ℝ := c.feed_flow / 3600

/-- Pipeline step 6: residence time, with the flow floored at
0.001 m³/s. -/
def residence_time (e : EquipmentConfig) (c : OperatingConditions) : ℝ :=
  bowl_vol e / max (flow_m3_s c) 0.001

/-- Pipeline step 6: effective radial separation distance `r * 0.3`. -/
def separation_dist (e : EquipmentConfig) : ℝ := bowl_radius e * 0.3

/-- Pipeline step 7: dimensionless sigma number for the oil phase. -/
def oil_sigma (f : FeedProperties) (e : EquipmentConfig) (c : OperatingConditions) : ℝ :=
  oil_v_hindered f e c * residence_time e c / separation_dist e

/-- Pipeline step 7: dimensionless sigma number for the solids phase. -/
def solids_sigma (f : FeedProperties) (e : EquipmentConfig) (c : OperatingConditions) : ℝ :=
  solids_v_hindered f e c * residence_time e c / separation_dist e

/-- Pipeline step 7: logistic base efficiency for the oil phase. -/
def oil_eff_base (f : FeedProperties) (e : EquipmentConfig) (c : OperatingConditions) : ℝ :=
  100 / (1 + Real.exp (-2.5 * (oil_sigma f e c - 1)))

/-- Pipeline step 7: logistic base efficiency for the solids phase. -/
def solids_eff_base (f : FeedProperties) (e : EquipmentConfig) (c : OperatingConditions) : ℝ :=
  100 / (1 + Real.exp (-2.5 * (solids_sigma f e c - 1)))

/-- Pipeline step 8: demulsifier effect (0 when no demulsifier is
dosed). -/
def demulsifier_effect (f : FeedProperties) : ℝ :=
  if 0 < f.demulsifier_dose then
    f.demulsifier_eff * calculate_langmuir_coverage f.demulsifier_dose 0.05 0.95
  else 0

/-- Pipeline step 8: interfacial-tension factor. -/
def interfacial_factor (f : FeedProperties) : ℝ := f.interfacial_tension / 25

/-- Pipeline step 8: emulsion factor reducing oil-phase efficiency. -/
def emulsion_factor (f : FeedProperties) : ℝ :=
  1 - f.emulsion_stability * 0.3 * (1 - demulsifier_effect f) / interfacial_factor f

/-- Pipeline step 8: flocculant uplift factor (1 when no flocculant is
dosed). -/
def flocculant_factor (f : FeedProperties) : ℝ :=
  if 0 < f.flocculant_dose then
    1 + f.flocculant_eff * min 1 (f.flocculant_dose / 50) * 0.2
  else 1

/-- Pipeline step 9: temperature factor, anchored at 60 °C. -/
def temp_factor (c : OperatingConditions) : ℝ :=
  1 + (c.temperature - 60) * 0.008

/-- Pipeline step 10: flow factor, anchored at 10 m³/h and floored at
0.6. -/
def flow_factor (c : OperatingConditions) : ℝ :=
  max 0.6 (1 - (c.feed_flow - 10) * 0.04)

/-- Pipeline step 11: final oil efficiency, clamped to [0, 99.5]. -/
def oil_efficiency_raw (f : FeedProperties) (e : EquipmentConfig) (c : OperatingConditions) : ℝ :=
  min 99.5 (max 0 (oil_eff_base f e c * flow_factor c * emulsion_factor f * temp_factor c))

/-- Pipeline step 11: final solids efficiency, clamped to [0, 99.9]. -/
def solids_efficiency_raw (f : FeedProperties) (e : EquipmentConfig) (c : OperatingConditions) : ℝ :=
  min 99.9 (max 0 (solids_eff_base f e c * flow_factor c * flocculant_factor f * temp_factor c))

/-- Pipeline step 12: oil carryover into the water phase. -/
def oil_carryover (f : FeedProperties) (e : EquipmentConfig) (c : OperatingConditions) : ℝ :=
  c.feed_flow * f.oil_fraction * (1 - oil_efficiency_raw f e c / 100)

/-- Pipeline step 12: recovered oil stream. -/
def oil_recovered (f : FeedProperties) (e : EquipmentConfig) (c : OperatingConditions) : ℝ :=
  c.feed_flow * f.oil_fraction * (oil_efficiency_raw f e c / 100)

/-- Pipeline step 12: recovered solids stream. -/
def solids_recovered (f : FeedProperties) (e : EquipmentConfig) (c : OperatingConditions) : ℝ :=
  c.feed_flow * f.solids_fraction * (solids_efficiency_raw f e c / 100)

/-- Pipeline step 12: net water output stream. -/
def water_output (f : FeedProperties) (e : EquipmentConfig) (c : OperatingConditions) : ℝ :=
  c.feed_flow - oil_recovered f e c - solids_recovered f e c

/-- Pipeline step 12: oil-in-water quality in ppm, 0 when the water
output is non-positive. -/
def water_quality_raw (f : FeedProperties) (e : EquipmentConfig) (c : OperatingConditions) : ℝ :=
  if 0 < water_output f e c then
    oil_carryover f e c / water_output f e c * 1e6 * (f.oil_density / f.water_density)
  else 0

/-- `calculate_separation_efficiency`: the full pipeline, returning the
`SeparationResults` record exactly as the source constructs it —
efficiencies rounded to 2 decimals, water quality to 1, g-force to 0,
residence time to 1; velocities and viscosity only unit-converted. -/
def calculate_separation_efficiency (f : FeedProperties) (e : EquipmentConfig)
    (c : OperatingConditions) : SeparationResults :=
  ⟨roundTo 2 (oil_efficiency_raw f e c),
   roundTo 2 (solids_efficiency_raw f e c),
   roundTo 1 (water_quality_raw f e c),
   roundTo 0 (pipeline_g_force e c),
   roundTo 1 (residence_time e c),
   oil_v_hindered f e c * 1000,
   solids_v_hindered f e c * 1000,
   pipeline_viscosity f c * 1000⟩

/-- Modelled from the spec: the Result record "at full floating-point
precision" — the same pipeline values with no rounding applied to any
field (spec §4.6 and §9: rounding is a presentation concern applied
only at the reporting boundary).  This definition exists to be compared
with `calculate_separation_efficiency`, which is the source. -/
def result_full_precision (f : FeedProperties) (e : EquipmentConfig)
    (c : OperatingConditions) : SeparationResults :=
  ⟨oil_efficiency_raw f e c,
   solids_efficiency_raw f e c,
   water_quality_raw f e c,
   pipeline_g_force e c,
   residence_time e c,
   oil_v_hindered f e c * 1000,
   solids_v_hindered f e c * 1000,
   pipeline_viscosity f c * 1000⟩

/-
Helper lemmas shared by the claim theorems.
-/

/-- `round` is monotone on the reals. -/
lemma round_mono_real {x y : ℝ} (h : x ≤ y) : round x ≤ round y := by
  rw [round_eq, round_eq]
  exact Int.floor_mono (by linarith)

/-- `roundTo` is monotone. -/
lemma roundTo_mono (n : ℕ) {x y : ℝ} (h : x ≤ y) : roundTo n x ≤ roundTo n y := by
  unfold roundTo
  have h10 : (0 : ℝ) < 10 ^ n := by positivity
  have hr : round (x * 10 ^ n) ≤ round (y * 10 ^ n) :=
    round_mono_real (by nlinarith)
  exact (div_le_div_iff_of_pos_right h10).mpr (by exact_mod_cast hr)

/-- `roundTo` moves a value by at most half a grid step (lower side). -/
lemma roundTo_ge (n : ℕ) (x : ℝ) : x - 1 / 2 / 10 ^ n ≤ roundTo n x := by
  have h := abs_sub_round (x * 10 ^ n)
  rw [abs_le] at h
  have h10 : (0 : ℝ) < 10 ^ n := by positivity
  have hc : (1 / 2 / 10 ^ n : ℝ) * 10 ^ n = 1 / 2 := div_mul_cancel₀ _ (ne_of_gt h10)
  unfold roundTo
  rw [le_div_iff₀ h10, sub_mul, hc]
  linarith [h.2]

/-- `roundTo` moves a value by at most half a grid step (upper side). -/
lemma roundTo_le (n : ℕ) (x : ℝ) : roundTo n x ≤ x + 1 / 2 / 10 ^ n := by
  have h := abs_sub_round (x * 10 ^ n)
  rw [abs_le] at h
  have h10 : (0 : ℝ) < 10 ^ n := by positivity
  have hc : (1 / 2 / 10 ^ n : ℝ) * 10 ^ n = 1 / 2 := div_mul_cancel₀ _ (ne_of_gt h10)
  unfold roundTo
  rw [div_le_iff₀ h10, add_mul, hc]
  linarith [h.1]

/-- `roundTo` fixes zero. -/
lemma roundTo_zero (n : ℕ) : roundTo n 0 = 0 := by
  unfold roundTo
  simp

/-- Evaluation rule for `roundTo` via the floor characterization. -/
lemma roundTo_eq_of_floor (n : ℕ) (x : ℝ) (z : ℤ) (h1 : (z : ℝ) ≤ x * 10 ^ n + 1 / 2)
    (h2 : x * 10 ^ n + 1 / 2 < z + 1) : roundTo n x = z / 10 ^ n := by
  have hf : ⌊x * 10 ^ n + 1 / 2⌋ = z := Int.floor_eq_iff.mpr ⟨h1, h2⟩
  unfold roundTo
  rw [round_eq, hf]

/-- The logistic base efficiency of the oil phase is strictly positive. -/
lemma oil_eff_base_pos (f : FeedProperties) (e : EquipmentConfig) (c : OperatingConditions) :
    0 < oil_eff_base f e c := by
  unfold oil_eff_base
  positivity

/-- The logistic base efficiency of the solids phase is strictly positive. -/
lemma solids_eff_base_pos (f : FeedProperties) (e : EquipmentConfig) (c : OperatingConditions) :
    0 < solids_eff_base f e c := by
  unfold solids_eff_base
  positivity

/-- The clamped raw oil efficiency lies in [0, 99.5]. -/
lemma oil_efficiency_raw_mem (f : FeedProperties) (e : EquipmentConfig) (c : OperatingConditions) :
    0 ≤ oil_efficiency_raw f e c ∧ oil_efficiency_raw f e c ≤ 99.5 := by
  unfold oil_efficiency_raw
  exact ⟨le_min (by norm_num) (le_max_left 0 _), min_le_left _ _⟩

/-- The clamped raw solids efficiency lies in [0, 99.9]. -/
lemma solids_efficiency_raw_mem (f : FeedProperties) (e : EquipmentConfig) (c : OperatingConditions) :
    0 ≤ solids_efficiency_raw f e c ∧ solids_efficiency_raw f e c ≤ 99.9 := by
  unfold solids_efficiency_raw
  exact ⟨le_min (by norm_num) (le_max_left 0 _), min_le_left _ _⟩

/-- `roundTo 2` fixes 99.5. -/
lemma roundTo_two_995 : roundTo 2 (99.5 : ℝ) = 99.5 := by
  rw [roundTo_eq_of_floor 2 99.5 9950 (by norm_num) (by norm_num)]
  norm_num

/-- `roundTo 2` fixes 99.9. -/
lemma roundTo_two_999 : roundTo 2 (99.9 : ℝ) = 99.9 := by
  rw [roundTo_eq_of_floor 2 99.9 9990 (by norm_num) (by norm_num)]
  norm_num

/-- Both reported efficiency fields stay inside the documented caps,
for arbitrary input records. -/
lemma efficiency_caps_aux (f : FeedProperties) (e : EquipmentConfig) (c : OperatingConditions) :
    (0 ≤ (calculate_separation_efficiency f e c).oil_efficiency ∧
      (calculate_separation_efficiency f e c).oil_efficiency ≤ 99.5) ∧
    (0 ≤ (calculate_separation_efficiency f e c).solids_efficiency ∧
      (calculate_separation_efficiency f e c).solids_efficiency ≤ 99.9) := by
  have ho := oil_efficiency_raw_mem f e c
  have hs := solids_efficiency_raw_mem f e c
  show (0 ≤ roundTo 2 (oil_efficiency_raw f e c) ∧
      roundTo 2 (oil_efficiency_raw f e c) ≤ 99.5) ∧
    (0 ≤ roundTo 2 (solids_efficiency_raw f e c) ∧
      roundTo 2 (solids_efficiency_raw f e c) ≤ 99.9)
  refine ⟨⟨?_, ?_⟩, ?_, ?_⟩
  · have := roundTo_mono 2 ho.1
    rwa [roundTo_zero] at this
  · have := roundTo_mono 2 ho.2
    rwa [roundTo_two_995] at this
  · have := roundTo_mono 2 hs.1
    rwa [roundTo_zero] at this
  · have := roundTo_mono 2 hs.2
    rwa [roundTo_two_999] at this

/-
Claim theorems.
-/

/-- C2: for every feed, equipment and conditions record, the reported
oil efficiency lies in [0, 99.5] and the reported solids efficiency in
[0, 99.9]; in particular this holds with the feed flow driven to the
default equipment's rated maximum (15 m³/h) and all other inputs at
their defaults. -/
theorem c2_efficiency_caps (f : FeedProperties) (e : EquipmentConfig) (c : OperatingConditions) :
    ((0 ≤ (calculate_separation_efficiency f e c).oil_efficiency ∧
       (calculate_separation_efficiency f e c).oil_efficiency ≤ 99.5) ∧
     (0 ≤ (calculate_separation_efficiency f e c).solids_efficiency ∧
       (calculate_separation_efficiency f e c).solids_efficiency ≤ 99.9)) ∧
    ((0 ≤ (calculate_separation_efficiency feedDefault equipmentDefault
        ⟨65, 3500, equipmentDefault.max_flow⟩).oil_efficiency ∧
       (calculate_separation_efficiency feedDefault equipmentDefault
        ⟨65, 3500, equipmentDefault.max_flow⟩).oil_efficiency ≤ 99.5) ∧
     (0 ≤ (calculate_separation_efficiency feedDefault equipmentDefault
        ⟨65, 3500, equipmentDefault.max_flow⟩).solids_efficiency ∧
       (calculate_separation_efficiency feedDefault equipmentDefault
        ⟨65, 3500, equipmentDefault.max_flow⟩).solids_efficiency ≤ 99.9)) :=
  ⟨efficiency_caps_aux f e c, efficiency_caps_aux _ _ _⟩

/-- C3 counterexample: for a negative fraction the hindered velocity
exceeds the input velocity, so the output is not within [0, v] for
every real fraction: at v = 1, f = -0.64, max_packing = 0.64, n = 1
the result is 2 > 1. -/
theorem c3_counterexample : ¬ calculate_hindered_settling 1 (-0.64) 0.64 1 ≤ 1 := by
  unfold calculate_hindered_settling
  rw [if_neg (by norm_num)]
  have h2 : (1 : ℝ) - (-0.64) / 0.64 = 2 := by norm_num
  rw [h2, Real.rpow_one]
  norm_num

/-- C3 (amended): for v ≥ 0, max_packing > 0 and exponent n > 0, the
hindered settling velocity lies in [0, v] for every NON-NEGATIVE
fraction f; it equals exactly 0 whenever f ≥ max_packing, and it is
monotone non-increasing in the fraction (both for all real
fractions). -/
theorem c3_hindered_settling (v f f1 f2 mp n : ℝ) (hv : 0 ≤ v) (hmp : 0 < mp) (hn : 0 < n) :
    (0 ≤ f → 0 ≤ calculate_hindered_settling v f mp n ∧
      calculate_hindered_settling v f mp n ≤ v) ∧
    (mp ≤ f → calculate_hindered_settling v f mp n = 0) ∧
    (f1 ≤ f2 → calculate_hindered_settling v f2 mp n ≤ calculate_hindered_settling v f1 mp n) := by
  refine ⟨?_, ?_, ?_⟩
  · intro hf
    unfold calculate_hindered_settling
    by_cases h : mp ≤ f
    · rw [if_pos h]
      exact ⟨le_refl 0, hv⟩
    · rw [if_neg h]
      push_neg at h
      have hb0 : 0 ≤ 1 - f / mp := by
        have : f / mp < 1 := (div_lt_one hmp).mpr h
        linarith
      have hb1 : 1 - f / mp ≤ 1 := by
        have : 0 ≤ f / mp := div_nonneg hf hmp.le
        linarith
      refine ⟨mul_nonneg hv (Real.rpow_nonneg hb0 n), ?_⟩
      calc v * (1 - f / mp) ^ n ≤ v * 1 :=
            mul_le_mul_of_nonneg_left (Real.rpow_le_one hb0 hb1 hn.le) hv
        _ = v := mul_one v
  · intro h
    unfold calculate_hindered_settling
    rw [if_pos h]
  · intro h12
    unfold calculate_hindered_settling
    by_cases h2 : mp ≤ f2
    · rw [if_pos h2]
      by_cases h1 : mp ≤ f1
      · rw [if_pos h1]
      · rw [if_neg h1]
        push_neg at h1
        have hb0 : 0 ≤ 1 - f1 / mp := by
          have : f1 / mp < 1 := (div_lt_one hmp).mpr h1
          linarith
        exact mul_nonneg hv (Real.rpow_nonneg hb0 n)
    · push_neg at h2
      have h1 : f1 < mp := lt_of_le_of_lt h12 h2
      rw [if_neg (not_le.mpr h2), if_neg (not_le.mpr h1)]
      have hb2 : 0 ≤ 1 - f2 / mp := by
        have : f2 / mp < 1 := (div_lt_one hmp).mpr h2
        linarith
      have hdiv : f1 / mp ≤ f2 / mp := (div_le_div_iff_of_pos_right hmp).mpr h12
      have hle : 1 - f2 / mp ≤ 1 - f1 / mp := by linarith
      exact mul_le_mul_of_nonneg_left (Real.rpow_le_rpow hb2 hle hn.le) hv

/-- C3 witness: the amended claim instantiated at concrete inputs
(v = 1, max_packing = 0.64, n = 4.65; fraction 0.2 for the range
bound, 0.7 for the jamming case, 0.1 ≤ 0.3 for monotonicity). -/
theorem c3_hindered_settling_witness :
    (0 ≤ calculate_hindered_settling 1 0.2 0.64 4.65 ∧
      calculate_hindered_settling 1 0.2 0.64 4.65 ≤ 1) ∧
    calculate_hindered_settling 1 0.7 0.64 4.65 = 0 ∧
    calculate_hindered_settling 1 0.3 0.64 4.65 ≤ calculate_hindered_settling 1 0.1 0.64 4.65 :=
  ⟨(c3_hindered_settling 1 0.2 0.1 0.3 0.64 4.65 (by norm_num) (by norm_num) (by norm_num)).1
      (by norm_num),
   (c3_hindered_settling 1 0.7 0.1 0.3 0.64 4.65 (by norm_num) (by norm_num) (by norm_num)).2.1
      (by norm_num),
   (c3_hindered_settling 1 0.2 0.1 0.3 0.64 4.65 (by norm_num) (by norm_num) (by norm_num)).2.2
      (by norm_num)⟩

/-- C4 counterexample: `calculate_viscosity` is not strictly positive
for every real base viscosity: at base -1 (temp 25, coeff 0.025,
ref 25) it returns -0.001 < 0. -/
theorem c4_counterexample : ¬ 0 < calculate_viscosity (-1) 25 0.025 25 := by
  unfold calculate_viscosity
  have h0 : (0.025 : ℝ) * (25 - 25) * 10 = 0 := by norm_num
  rw [h0, Real.exp_zero]
  norm_num

/-- C4 (amended): for every STRICTLY POSITIVE base viscosity and any
real temperature and coefficient, `calculate_viscosity` returns a
strictly positive value, and the value is exactly
`base * 0.001 * exp(coeff * (ref_temp - temp) * 10)`. -/
theorem c4_viscosity_pos (b t k r : ℝ) (hb : 0 < b) :
    0 < calculate_viscosity b t k r ∧
    calculate_viscosity b t k r = b * 0.001 * Real.exp (k * (r - t) * 10) := by
  constructor
  · exact mul_pos (mul_pos hb (by norm_num)) (Real.exp_pos _)
  · rfl

/-- C4 witness: the amended claim at the reference scenario
(base 50 mPa·s, temp 25 °C, coeff 0.025, ref 25). -/
theorem c4_viscosity_pos_witness :
    0 < calculate_viscosity 50 25 0.025 25 ∧
    calculate_viscosity 50 25 0.025 25 = 50 * 0.001 * Real.exp (0.025 * (25 - 25) * 10) :=
  c4_viscosity_pos 50 25 0.025 25 (by norm_num)

/-- C5 counterexample: with base viscosity 0 (a real value allowed by
the claim) and coefficient 1 > 0, temperatures 1 < 2 give equal
viscosities (both 0), so the strict decrease fails. -/
theorem c5_counterexample : ¬ calculate_viscosity 0 2 1 25 < calculate_viscosity 0 1 1 25 := by
  unfold calculate_viscosity
  simp

/-- C5 (amended): for every STRICTLY POSITIVE base viscosity, positive
temperature coefficient, and temperatures T1 < T2, the viscosity at T1
is strictly greater than at T2 (strict monotone decrease in
temperature). -/
theorem c5_viscosity_strict_anti (b k t1 t2 r : ℝ) (hb : 0 < b) (hk : 0 < k) (h : t1 < t2) :
    calculate_viscosity b t2 k r < calculate_viscosity b t1 k r := by
  unfold calculate_viscosity
  have h1 : k * (r - t2) * 10 < k * (r - t1) * 10 := by nlinarith
  exact mul_lt_mul_of_pos_left (Real.exp_lt_exp.mpr h1) (mul_pos hb (by norm_num))

/-- C5 witness: the amended claim at base 50, coeff 0.025,
temperatures 25 < 65 (the spec's own reference scenario). -/
theorem c5_viscosity_strict_anti_witness :
    calculate_viscosity 50 65 0.025 25 < calculate_viscosity 50 25 0.025 25 :=
  c5_viscosity_strict_anti 50 0.025 25 65 25 (by norm_num) (by norm_num) (by norm_num)

/-- C6: with the default constants k = 0.05 and q_max = 0.95, the
Langmuir coverage is 0 for every dose ≤ 0 (in particular at 0), lies
in [0, 0.95), and is monotone (non-decreasing) in the dose. -/
theorem c6_langmuir_coverage (d d1 d2 : ℝ) :
    (d ≤ 0 → calculate_langmuir_coverage d 0.05 0.95 = 0) ∧
    0 ≤ calculate_langmuir_coverage d 0.05 0.95 ∧
    calculate_langmuir_coverage d 0.05 0.95 < 0.95 ∧
    (d1 ≤ d2 → calculate_langmuir_coverage d1 0.05 0.95 ≤ calculate_langmuir_coverage d2 0.05 0.95) := by
  refine ⟨?_, ?_, ?_, ?_⟩
  · intro hd
    unfold calculate_langmuir_coverage
    rw [if_pos hd]
  · unfold calculate_langmuir_coverage
    by_cases hd : d ≤ 0
    · rw [if_pos hd]
    · rw [if_neg hd]
      push_neg at hd
      have hden : (0 : ℝ) < 1 + 0.05 * d := by nlinarith
      refine le_min ?_ (by norm_num)
      have : 0 ≤ 0.05 * d / (1 + 0.05 * d) := div_nonneg (by nlinarith) hden.le
      nlinarith
  · unfold calculate_langmuir_coverage
    by_cases hd : d ≤ 0
    · rw [if_pos hd]; norm_num
    · rw [if_neg hd]
      push_neg at hd
      have hden : (0 : ℝ) < 1 + 0.05 * d := by nlinarith
      have hratio : 0.05 * d / (1 + 0.05 * d) < 1 := (div_lt_one hden).mpr (by nlinarith)
      have hx : 0.05 * d / (1 + 0.05 * d) * 0.95 < 0.95 := by nlinarith
      exact lt_of_le_of_lt (min_le_left _ _) hx
  · intro h12
    unfold calculate_langmuir_coverage
    by_cases h1 : d1 ≤ 0
    · rw [if_pos h1]
      by_cases h2 : d2 ≤ 0
      · rw [if_pos h2]
      · rw [if_neg h2]
        push_neg at h2
        have hden : (0 : ℝ) < 1 + 0.05 * d2 := by nlinarith
        refine le_min ?_ (by norm_num)
        have : 0 ≤ 0.05 * d2 / (1 + 0.05 * d2) := div_nonneg (by nlinarith) hden.le
        nlinarith
    · push_neg at h1
      have h2 : ¬ d2 ≤ 0 := by push_neg; linarith
      rw [if_neg (not_le.mpr h1), if_neg h2]
      push_neg at h2
      refine min_le_min ?_ le_rfl
      have ha : (0 : ℝ) < 1 + 0.05 * d1 := by nlinarith
      have hb : (0 : ℝ) < 1 + 0.05 * d2 := by nlinarith
      have hdiv : 0.05 * d1 / (1 + 0.05 * d1) ≤ 0.05 * d2 / (1 + 0.05 * d2) := by
        rw [div_le_div_iff₀ ha hb]
        nlinarith
      nlinarith [hdiv]

/-- C6 witness: the claim instantiated at doses -1 (zero branch) and
10 ≤ 50 (range and monotonicity). -/
theorem c6_langmuir_coverage_witness :
    calculate_langmuir_coverage (-1) 0.05 0.95 = 0 ∧
    (0 ≤ calculate_langmuir_coverage 50 0.05 0.95 ∧
      calculate_langmuir_coverage 50 0.05 0.95 < 0.95) ∧
    calculate_langmuir_coverage 10 0.05 0.95 ≤ calculate_langmuir_coverage 50 0.05 0.95 :=
  ⟨(c6_langmuir_coverage (-1) 10 50).1 (by norm_num),
   ⟨(c6_langmuir_coverage 50 10 50).2.1, (c6_langmuir_coverage 50 10 50).2.2.1⟩,
   (c6_langmuir_coverage 10 10 50).2.2.2 (by norm_num)⟩

/-- C10: whenever the feed flow is at most 3.6 m³/h — including zero
and negative flows — the flow floor binds and the residence time
computed by the pipeline equals exactly `bowl_vol / 0.001`. -/
theorem c10_residence_time_floor (e : EquipmentConfig) (c : OperatingConditions)
    (h : c.feed_flow ≤ 3.6) : residence_time e c = bowl_vol e / 0.001 := by
  unfold residence_time
  congr 1
  apply max_eq_right
  unfold flow_m3_s
  linarith

/-- C10 witness: the floor binds at the physically positive flow
2 m³/h on the default equipment. -/
theorem c10_residence_time_floor_witness :
    residence_time equipmentDefault ⟨65, 3500, 2⟩ = bowl_vol equipmentDefault / 0.001 :=
  c10_residence_time_floor equipmentDefault ⟨65, 3500, 2⟩ (by norm_num)

/-
C1: rounding inside the core.
-/

/-- Langmuir coverage of the default demulsifier dose (50 ppm) is
exactly 19/28. -/
lemma langmuir_coverage_50 : calculate_langmuir_coverage 50 0.05 0.95 = 19 / 28 := by
  unfold calculate_langmuir_coverage
  rw [if_neg (by norm_num), min_eq_left (by norm_num)]
  norm_num

/-- Demulsifier effect for a feed with the default demulsifier fields
(dose 50 ppm, efficacy 0.7). -/
lemma demulsifier_effect_default_chems (f : FeedProperties) (h1 : f.demulsifier_dose = 50)
    (h2 : f.demulsifier_eff = 0.7) : demulsifier_effect f = 0.475 := by
  unfold demulsifier_effect
  rw [h1, h2, if_pos (by norm_num), langmuir_coverage_50]
  norm_num

/-- Emulsion factor for a feed with the default chemical/emulsion
fields. -/
lemma emulsion_factor_default_chems (f : FeedProperties) (h1 : f.demulsifier_dose = 50)
    (h2 : f.demulsifier_eff = 0.7) (h3 : f.emulsion_stability = 0.3)
    (h4 : f.interfacial_tension = 25) : emulsion_factor f = 0.95275 := by
  unfold emulsion_factor interfacial_factor
  rw [demulsifier_effect_default_chems f h1 h2, h3, h4]
  norm_num

/-- Flocculant factor is 1 for a feed with zero flocculant dose. -/
lemma flocculant_factor_of_zero_dose (f : FeedProperties) (h : f.flocculant_dose = 0) :
    flocculant_factor f = 1 := by
  unfold flocculant_factor
  rw [if_neg]
  rw [h]
  norm_num

/-- Feed record for the C1 rounding counterexample: all defaults except
water density 3000 kg/m³, which makes the exact (unrounded) water
quality 178000/3 ppm — a value off the 0.1-ppm rounding grid. -/
def feedC1 : FeedProperties := { feedDefault with water_density := 3000 }

/-- Operating conditions for the C1 counterexample: -100 °C makes the
temperature factor negative, driving both clamped efficiencies to
exactly 0; flow 10 m³/h makes the flow factor exactly 1. -/
def conditionsC1 : OperatingConditions := ⟨-100, 3500, 10⟩

lemma flow_factor_c1 : flow_factor conditionsC1 = 1 := by
  have h : (1 : ℝ) - (conditionsC1.feed_flow - 10) * 0.04 = 1 := by
    norm_num [conditionsC1]
  unfold flow_factor
  rw [h]
  exact max_eq_right (by norm_num)

lemma temp_factor_c1 : temp_factor conditionsC1 = -0.28 := by
  unfold temp_factor
  norm_num [conditionsC1]

lemma emulsion_factor_c1 : emulsion_factor feedC1 = 0.95275 :=
  emulsion_factor_default_chems feedC1 rfl rfl rfl rfl

lemma oil_efficiency_raw_c1 : oil_efficiency_raw feedC1 equipmentDefault conditionsC1 = 0 := by
  unfold oil_efficiency_raw
  rw [flow_factor_c1, emulsion_factor_c1, temp_factor_c1]
  have hb := oil_eff_base_pos feedC1 equipmentDefault conditionsC1
  have hneg : oil_eff_base feedC1 equipmentDefault conditionsC1 * 1 * 0.95275 * (-0.28) ≤ 0 := by
    nlinarith
  rw [max_eq_left hneg]
  exact min_eq_right (by norm_num)

lemma solids_efficiency_raw_c1 : solids_efficiency_raw feedC1 equipmentDefault conditionsC1 = 0 := by
  unfold solids_efficiency_raw
  rw [flow_factor_c1, flocculant_factor_of_zero_dose feedC1 rfl, temp_factor_c1]
  have hb := solids_eff_base_pos feedC1 equipmentDefault conditionsC1
  have hneg : solids_eff_base feedC1 equipmentDefault conditionsC1 * 1 * 1 * (-0.28) ≤ 0 := by
    nlinarith
  rw [max_eq_left hneg]
  exact min_eq_right (by norm_num)

lemma water_output_c1 : water_output feedC1 equipmentDefault conditionsC1 = 10 := by
  unfold water_output oil_recovered solids_recovered
  rw [oil_efficiency_raw_c1, solids_efficiency_raw_c1]
  norm_num [conditionsC1]

lemma oil_carryover_c1 : oil_carryover feedC1 equipmentDefault conditionsC1 = 2 := by
  unfold oil_carryover
  rw [oil_efficiency_raw_c1]
  norm_num [conditionsC1, feedC1, feedDefault]

lemma water_quality_raw_c1 :
    water_quality_raw feedC1 equipmentDefault conditionsC1 = 178000 / 3 := by
  unfold water_quality_raw
  rw [water_output_c1, oil_carryover_c1, if_pos (by norm_num : (0 : ℝ) < 10)]
  norm_num [feedC1, feedDefault]

lemma roundTo_c1 : roundTo 1 ((178000 : ℝ) / 3) = 593333 / 10 := by
  rw [roundTo_eq_of_floor 1 (178000 / 3) 593333 (by norm_num) (by norm_num)]
  norm_num

/-- C1 counterexample: the core does NOT return the Result at full
precision.  At the concrete input `feedC1` (defaults with water density
3000), default equipment, and `conditionsC1` (-100 °C, 3500 RPM,
10 m³/h), the returned water quality is the rounded 59333.3 ppm while
the full-precision value is 178000/3 = 59333.33… ppm, so the two
records differ. -/
theorem c1_counterexample :
    calculate_separation_efficiency feedC1 equipmentDefault conditionsC1 ≠
      result_full_precision feedC1 equipmentDefault conditionsC1 := by
  intro h
  have hfield := congrArg SeparationResults.water_quality_ppm h
  have hL : (calculate_separation_efficiency feedC1 equipmentDefault conditionsC1).water_quality_ppm
      = 593333 / 10 := by
    show roundTo 1 (water_quality_raw feedC1 equipmentDefault conditionsC1) = 593333 / 10
    rw [water_quality_raw_c1, roundTo_c1]
  have hR : (result_full_precision feedC1 equipmentDefault conditionsC1).water_quality_ppm
      = 178000 / 3 := water_quality_raw_c1
  rw [hL, hR] at hfield
  norm_num at hfield

/-- C1 (amended): the core applies rounding before returning — the oil
and solids efficiencies are rounded to 2 decimal places, the water
quality to 1, the g-force to 0, and the residence time to 1; only the
two settling-velocity fields and the viscosity field are returned at
full precision (unit conversion aside).  Each field of the returned
record relates to the full-precision pipeline value exactly this
way. -/
theorem c1_core_rounds_fields (f : FeedProperties) (e : EquipmentConfig)
    (c : OperatingConditions) :
    (calculate_separation_efficiency f e c).oil_efficiency
        = roundTo 2 (result_full_precision f e c).oil_efficiency ∧
    (calculate_separation_efficiency f e c).solids_efficiency
        = roundTo 2 (result_full_precision f e c).solids_efficiency ∧
    (calculate_separation_efficiency f e c).water_quality_ppm
        = roundTo 1 (result_full_precision f e c).water_quality_ppm ∧
    (calculate_separation_efficiency f e c).g_force
        = roundTo 0 (result_full_precision f e c).g_force ∧
    (calculate_separation_efficiency f e c).residence_time
        = roundTo 1 (result_full_precision f e c).residence_time ∧
    (calculate_separation_efficiency f e c).oil_settling_velocity
        = (result_full_precision f e c).oil_settling_velocity ∧
    (calculate_separation_efficiency f e c).solids_settling_velocity
        = (result_full_precision f e c).solids_settling_velocity ∧
    (calculate_separation_efficiency f e c).viscosity
        = (result_full_precision f e c).viscosity :=
  ⟨rfl, rfl, rfl, rfl, rfl, rfl, rfl, rfl⟩

/-
C7: the default-configuration scenario.
-/

/-- C7 (code bug): at the all-default configuration the reported water
quality exceeds 100 ppm — in fact it is at least 889.95 ppm, because
even at the maximum clamped oil efficiency of 99.5 % a 20 % oil feed
leaves carryover of at least 0.012 m³/h in at most 12 m³/h of water.
This contradicts the claim (and the source's own validation test)
`water_quality < 100 ppm`. -/
theorem c7_default_water_quality_above_100 :
    100 < (calculate_separation_efficiency feedDefault equipmentDefault
      conditionsDefault).water_quality_ppm := by
  have ho := oil_efficiency_raw_mem feedDefault equipmentDefault conditionsDefault
  have hs := solids_efficiency_raw_mem feedDefault equipmentDefault conditionsDefault
  have e1 : conditionsDefault.feed_flow = 12 := rfl
  have e2 : feedDefault.oil_fraction = 0.2 := by norm_num [feedDefault]
  have e3 : feedDefault.solids_fraction = 0.05 := rfl
  have e4 : feedDefault.oil_density = 890 := rfl
  have e5 : feedDefault.water_density = 1000 := rfl
  have hwo_pos : 0 < water_output feedDefault equipmentDefault conditionsDefault := by
    unfold water_output oil_recovered solids_recovered
    rw [e1, e2, e3]
    nlinarith [ho.2, hs.2]
  have hwo_ub : water_output feedDefault equipmentDefault conditionsDefault ≤ 12 := by
    unfold water_output oil_recovered solids_recovered
    rw [e1, e2, e3]
    nlinarith [ho.1, hs.1]
  have hco_lb : 0.012 ≤ oil_carryover feedDefault equipmentDefault conditionsDefault := by
    unfold oil_carryover
    rw [e1, e2]
    nlinarith [ho.2]
  have hdiv : (0.001 : ℝ) ≤ oil_carryover feedDefault equipmentDefault conditionsDefault
      / water_output feedDefault equipmentDefault conditionsDefault := by
    rw [le_div_iff₀ hwo_pos]
    nlinarith [hwo_ub, hco_lb]
  have hraw : 890 ≤ water_quality_raw feedDefault equipmentDefault conditionsDefault := by
    unfold water_quality_raw
    rw [if_pos hwo_pos, e4, e5]
    nlinarith [hdiv]
  have hround := roundTo_ge 1 (water_quality_raw feedDefault equipmentDefault conditionsDefault)
  have h005 : (1 : ℝ) / 2 / 10 ^ 1 = 0.05 := by norm_num
  rw [h005] at hround
  show 100 < roundTo 1 (water_quality_raw feedDefault equipmentDefault conditionsDefault)
  linarith [hround, hraw]

/-
C9: jamming yields zero velocities but positive base efficiencies.
-/

/-- Numerical bound `exp 2.5 < 21` used for the positive-efficiency
part of C9. -/
lemma exp_two_point_five_lt : Real.exp 2.5 < 21 := by
  have h1 : Real.exp 2.5 ≤ Real.exp 3 := Real.exp_le_exp.mpr (by norm_num)
  have h2 : Real.exp 3 = Real.exp 1 ^ (3 : ℕ) := by
    rw [← Real.exp_nat_mul]
    norm_num
  have h3 : Real.exp 1 ^ (3 : ℕ) < 2.7182818286 ^ (3 : ℕ) :=
    pow_lt_pow_left₀ Real.exp_one_lt_d9 (le_of_lt (Real.exp_pos 1)) (by norm_num)
  have h4 : (2.7182818286 : ℝ) ^ (3 : ℕ) < 21 := by norm_num
  rw [h2] at h1
  linarith

/-- The combined hindrance fraction is at the packing maximum whenever
the C9 hypothesis holds. -/
lemma total_solids_ge_packing (f : FeedProperties)
    (h : f.max_packing_fraction ≤ f.solids_fraction + 0.1 * f.oil_fraction) :
    f.max_packing_fraction ≤ total_solids f := by
  unfold total_solids
  linarith

lemma oil_v_hindered_jammed (f : FeedProperties) (e : EquipmentConfig) (c : OperatingConditions)
    (h : f.max_packing_fraction ≤ f.solids_fraction + 0.1 * f.oil_fraction) :
    oil_v_hindered f e c = 0 := by
  unfold oil_v_hindered calculate_hindered_settling
  rw [if_pos (total_solids_ge_packing f h)]

lemma solids_v_hindered_jammed (f : FeedProperties) (e : EquipmentConfig) (c : OperatingConditions)
    (h : f.max_packing_fraction ≤ f.solids_fraction + 0.1 * f.oil_fraction) :
    solids_v_hindered f e c = 0 := by
  unfold solids_v_hindered calculate_hindered_settling
  rw [if_pos (total_solids_ge_packing f h)]

lemma oil_sigma_jammed (f : FeedProperties) (e : EquipmentConfig) (c : OperatingConditions)
    (h : f.max_packing_fraction ≤ f.solids_fraction + 0.1 * f.oil_fraction) :
    oil_sigma f e c = 0 := by
  unfold oil_sigma
  rw [oil_v_hindered_jammed f e c h, zero_mul, zero_div]

lemma solids_sigma_jammed (f : FeedProperties) (e : EquipmentConfig) (c : OperatingConditions)
    (h : f.max_packing_fraction ≤ f.solids_fraction + 0.1 * f.oil_fraction) :
    solids_sigma f e c = 0 := by
  unfold solids_sigma
  rw [solids_v_hindered_jammed f e c h, zero_mul, zero_div]

lemma oil_eff_base_jammed (f : FeedProperties) (e : EquipmentConfig) (c : OperatingConditions)
    (h : f.max_packing_fraction ≤ f.solids_fraction + 0.1 * f.oil_fraction) :
    oil_eff_base f e c = 100 / (1 + Real.exp 2.5) := by
  unfold oil_eff_base
  rw [oil_sigma_jammed f e c h]
  norm_num

lemma solids_eff_base_jammed (f : FeedProperties) (e : EquipmentConfig) (c : OperatingConditions)
    (h : f.max_packing_fraction ≤ f.solids_fraction + 0.1 * f.oil_fraction) :
    solids_eff_base f e c = 100 / (1 + Real.exp 2.5) := by
  unfold solids_eff_base
  rw [solids_sigma_jammed f e c h]
  norm_num

/-- Feed record witnessing C9's positive-efficiency half: all defaults
except the solids fraction raised to 0.64, so the combined hindrance
fraction 0.64 + 0.02 is above the packing maximum 0.64. -/
def feedC9 : FeedProperties := { feedDefault with solids_fraction := 0.64 }

lemma feedC9_jammed :
    feedC9.max_packing_fraction ≤ feedC9.solids_fraction + 0.1 * feedC9.oil_fraction := by
  norm_num [feedC9, feedDefault]

lemma flow_factor_default : flow_factor conditionsDefault = 0.92 := by
  have h : (1 : ℝ) - (conditionsDefault.feed_flow - 10) * 0.04 = 0.92 := by
    norm_num [conditionsDefault]
  unfold flow_factor
  rw [h]
  exact max_eq_right (by norm_num)

lemma temp_factor_default : temp_factor conditionsDefault = 1.04 := by
  unfold temp_factor
  norm_num [conditionsDefault]

lemma oil_efficiency_c9_pos :
    0 < (calculate_separation_efficiency feedC9 equipmentDefault conditionsDefault).oil_efficiency := by
  show 0 < roundTo 2 (oil_efficiency_raw feedC9 equipmentDefault conditionsDefault)
  have hbase : oil_eff_base feedC9 equipmentDefault conditionsDefault = 100 / (1 + Real.exp 2.5) :=
    oil_eff_base_jammed feedC9 equipmentDefault conditionsDefault feedC9_jammed
  have hexp := exp_two_point_five_lt
  have hexp0 := Real.exp_pos (2.5 : ℝ)
  have hbase_lb : (4 : ℝ) < oil_eff_base feedC9 equipmentDefault conditionsDefault := by
    rw [hbase, lt_div_iff₀ (by linarith)]
    linarith
  have hef : emulsion_factor feedC9 = 0.95275 :=
    emulsion_factor_default_chems feedC9 rfl rfl rfl rfl
  have hp : (0.005 : ℝ) < oil_eff_base feedC9 equipmentDefault conditionsDefault
      * flow_factor conditionsDefault * emulsion_factor feedC9 * temp_factor conditionsDefault := by
    rw [flow_factor_default, hef, temp_factor_default]
    nlinarith [hbase_lb]
  have hraw : (0.005 : ℝ) < oil_efficiency_raw feedC9 equipmentDefault conditionsDefault := by
    unfold oil_efficiency_raw
    exact lt_min (by norm_num) (lt_of_lt_of_le hp (le_max_right 0 _))
  have hround := roundTo_ge 2 (oil_efficiency_raw feedC9 equipmentDefault conditionsDefault)
  have h0005 : (1 : ℝ) / 2 / 10 ^ 2 = 0.005 := by norm_num
  rw [h0005] at hround
  linarith

lemma solids_efficiency_c9_pos :
    0 < (calculate_separation_efficiency feedC9 equipmentDefault conditionsDefault).solids_efficiency := by
  show 0 < roundTo 2 (solids_efficiency_raw feedC9 equipmentDefault conditionsDefault)
  have hbase : solids_eff_base feedC9 equipmentDefault conditionsDefault
      = 100 / (1 + Real.exp 2.5) :=
    solids_eff_base_jammed feedC9 equipmentDefault conditionsDefault feedC9_jammed
  have hexp := exp_two_point_five_lt
  have hexp0 := Real.exp_pos (2.5 : ℝ)
  have hbase_lb : (4 : ℝ) < solids_eff_base feedC9 equipmentDefault conditionsDefault := by
    rw [hbase, lt_div_iff₀ (by linarith)]
    linarith
  have hff : flocculant_factor feedC9 = 1 := flocculant_factor_of_zero_dose feedC9 rfl
  have hp : (0.005 : ℝ) < solids_eff_base feedC9 equipmentDefault conditionsDefault
      * flow_factor conditionsDefault * flocculant_factor feedC9 * temp_factor conditionsDefault := by
    rw [flow_factor_default, hff, temp_factor_default]
    nlinarith [hbase_lb]
  have hraw : (0.005 : ℝ) < solids_efficiency_raw feedC9 equipmentDefault conditionsDefault := by
    unfold solids_efficiency_raw
    exact lt_min (by norm_num) (lt_of_lt_of_le hp (le_max_right 0 _))
  have hround := roundTo_ge 2 (solids_efficiency_raw feedC9 equipmentDefault conditionsDefault)
  have h0005 : (1 : ℝ) / 2 / 10 ^ 2 = 0.005 := by norm_num
  rw [h0005] at hround
  linarith

/-- C9: whenever the combined hindrance fraction
`solids_fraction + 0.1 * oil_fraction` reaches the packing maximum,
both settling-velocity fields of the Result are exactly 0, both sigma
values are 0, and both base efficiencies equal `100 / (1 + exp 2.5)`
(≈ 7.59 %); moreover at the concrete jammed input `feedC9` (defaults
with solids fraction 0.64) the pipeline still reports strictly
positive oil and solids efficiencies. -/
theorem c9_jammed_velocities_and_efficiencies (f : FeedProperties) (e : EquipmentConfig)
    (c : OperatingConditions)
    (h : f.max_packing_fraction ≤ f.solids_fraction + 0.1 * f.oil_fraction) :
    ((calculate_separation_efficiency f e c).oil_settling_velocity = 0 ∧
     (calculate_separation_efficiency f e c).solids_settling_velocity = 0 ∧
     oil_sigma f e c = 0 ∧ solids_sigma f e c = 0 ∧
     oil_eff_base f e c = 100 / (1 + Real.exp 2.5) ∧
     solids_eff_base f e c = 100 / (1 + Real.exp 2.5)) ∧
    (0 < (calculate_separation_efficiency feedC9 equipmentDefault
        conditionsDefault).oil_efficiency ∧
     0 < (calculate_separation_efficiency feedC9 equipmentDefault
        conditionsDefault).solids_efficiency) := by
  refine ⟨⟨?_, ?_, oil_sigma_jammed f e c h, solids_sigma_jammed f e c h,
      oil_eff_base_jammed f e c h, solids_eff_base_jammed f e c h⟩,
    oil_efficiency_c9_pos, solids_efficiency_c9_pos⟩
  · show oil_v_hindered f e c * 1000 = 0
    rw [oil_v_hindered_jammed f e c h, zero_mul]
  · show solids_v_hindered f e c * 1000 = 0
    rw [solids_v_hindered_jammed f e c h, zero_mul]

/-- C9 witness: the theorem instantiated at the jammed feed `feedC9`
with default equipment and conditions. -/
theorem c9_jammed_witness :
    ((calculate_separation_efficiency feedC9 equipmentDefault
        conditionsDefault).oil_settling_velocity = 0 ∧
     (calculate_separation_efficiency feedC9 equipmentDefault
        conditionsDefault).solids_settling_velocity = 0 ∧
     oil_sigma feedC9 equipmentDefault conditionsDefault = 0 ∧
     solids_sigma feedC9 equipmentDefault conditionsDefault = 0 ∧
     oil_eff_base feedC9 equipmentDefault conditionsDefault = 100 / (1 + Real.exp 2.5) ∧
     solids_eff_base feedC9 equipmentDefault conditionsDefault = 100 / (1 + Real.exp 2.5)) ∧
    (0 < (calculate_separation_efficiency feedC9 equipmentDefault
        conditionsDefault).oil_efficiency ∧
     0 < (calculate_separation_efficiency feedC9 equipmentDefault
        conditionsDefault).solids_efficiency) :=
  c9_jammed_velocities_and_efficiencies feedC9 equipmentDefault conditionsDefault
    (by norm_num [feedC9, feedDefault])

/-
C8: raising the temperature from 60 °C to 70 °C does not decrease the
oil efficiency.
-/

/-- Operating conditions for C8 at 60 °C (all other fields default). -/
def conditionsC8low : OperatingConditions := ⟨60, 3500, 12⟩

/-- Operating conditions for C8 at 70 °C (all other fields default). -/
def conditionsC8high : OperatingConditions := ⟨70, 3500, 12⟩

/-- Positivity of `calculate_viscosity` for a positive base viscosity. -/
lemma viscosity_pos_aux (b t k r : ℝ) (hb : 0 < b) : 0 < calculate_viscosity b t k r :=
  mul_pos (mul_pos hb (by norm_num)) (Real.exp_pos _)

lemma pipeline_viscosity_default_pos (c : OperatingConditions) :
    0 < pipeline_viscosity feedDefault c := by
  unfold pipeline_viscosity
  exact viscosity_pos_aux _ _ _ _ (by norm_num [feedDefault])

/-- At the higher temperature the operating viscosity is no larger. -/
lemma pipeline_viscosity_c8_le :
    pipeline_viscosity feedDefault conditionsC8high ≤
    pipeline_viscosity feedDefault conditionsC8low := by
  unfold pipeline_viscosity calculate_viscosity
  have e1 : feedDefault.oil_viscosity = 50 := rfl
  have e2 : feedDefault.viscosity_temp_coeff = 0.025 := rfl
  have t1 : conditionsC8high.temperature = 70 := rfl
  have t2 : conditionsC8low.temperature = 60 := rfl
  rw [e1, e2, t1, t2]
  have hexp : Real.exp (0.025 * (25 - (70 : ℝ)) * 10) ≤ Real.exp (0.025 * (25 - (60 : ℝ)) * 10) :=
    Real.exp_le_exp.mpr (by norm_num)
  nlinarith [hexp]

lemma pipeline_g_accel_3500_pos (c : OperatingConditions) (h : c.bowl_speed = 3500) :
    0 < pipeline_g_accel equipmentDefault c := by
  unfold pipeline_g_accel bowl_radius
  rw [h]
  have hd : equipmentDefault.bowl_diameter = 400 := rfl
  rw [hd]
  have hpi := Real.pi_pos
  have hω : (0 : ℝ) < 3500 * 2 * Real.pi / 60 := by positivity
  exact mul_pos (mul_pos hω hω) (by norm_num)

/-- Lower viscosity gives a larger (or equal) oil Stokes velocity at
the default feed and equipment. -/
lemma oil_v_stokes_c8_le :
    oil_v_stokes feedDefault equipmentDefault conditionsC8low ≤
    oil_v_stokes feedDefault equipmentDefault conditionsC8high := by
  unfold oil_v_stokes calculate_stokes_velocity
  have hga_eq : pipeline_g_accel equipmentDefault conditionsC8high
      = pipeline_g_accel equipmentDefault conditionsC8low := rfl
  rw [hga_eq]
  have hga := pipeline_g_accel_3500_pos conditionsC8low rfl
  have hd0 : (0 : ℝ) < feedDefault.oil_droplet_d50 * 1e-6 := by norm_num [feedDefault]
  have hdr : (0 : ℝ) < oil_water_delta_rho feedDefault := by
    norm_num [oil_water_delta_rho, water_density_adj, feedDefault]
  have hsph : (0 : ℝ) < feedDefault.oil_sphericity := by norm_num [feedDefault]
  have hN : 0 < (feedDefault.oil_droplet_d50 * 1e-6) ^ (2 : ℕ) * oil_water_delta_rho feedDefault
      * pipeline_g_accel equipmentDefault conditionsC8low * feedDefault.oil_sphericity :=
    mul_pos (mul_pos (mul_pos (pow_pos hd0 2) hdr) hga) hsph
  have hμl := pipeline_viscosity_default_pos conditionsC8low
  have hμh := pipeline_viscosity_default_pos conditionsC8high
  have hμle := pipeline_viscosity_c8_le
  rw [abs_of_pos (div_pos hN (by linarith)), abs_of_pos (div_pos hN (by linarith))]
  exact (div_le_div_iff_of_pos_left hN (by linarith) (by linarith)).mpr (by linarith)

/-- Hindered settling is monotone in the input velocity (for a positive
packing maximum). -/
lemma hindered_settling_mono_velocity (v1 v2 ts mp n : ℝ) (h : v1 ≤ v2) (hmp : 0 < mp) :
    calculate_hindered_settling v1 ts mp n ≤ calculate_hindered_settling v2 ts mp n := by
  unfold calculate_hindered_settling
  by_cases hj : mp ≤ ts
  · simp only [if_pos hj]
    exact le_rfl
  · simp only [if_neg hj]
    push_neg at hj
    have hb : 0 ≤ 1 - ts / mp := by
      have := (div_lt_one hmp).mpr hj
      linarith
    exact mul_le_mul_of_nonneg_right h (Real.rpow_nonneg hb n)

lemma oil_v_hindered_c8_le :
    oil_v_hindered feedDefault equipmentDefault conditionsC8low ≤
    oil_v_hindered feedDefault equipmentDefault conditionsC8high := by
  unfold oil_v_hindered
  exact hindered_settling_mono_velocity _ _ _ _ _ oil_v_stokes_c8_le (by norm_num [feedDefault])

lemma residence_time_c8_nonneg : 0 ≤ residence_time equipmentDefault conditionsC8low := by
  have h1 : (0 : ℝ) ≤ bowl_vol equipmentDefault := by
    have hd : equipmentDefault.bowl_diameter = 400 := rfl
    have hl : equipmentDefault.bowl_length = 1100 := rfl
    unfold bowl_vol bowl_radius
    rw [hd, hl]
    positivity
  have h2 : (0 : ℝ) < max (flow_m3_s conditionsC8low) 0.001 :=
    lt_of_lt_of_le (by norm_num) (le_max_right _ _)
  unfold residence_time
  exact div_nonneg h1 h2.le

lemma separation_dist_default_pos : 0 < separation_dist equipmentDefault := by
  have hd : equipmentDefault.bowl_diameter = 400 := rfl
  unfold separation_dist bowl_radius
  rw [hd]
  norm_num

lemma oil_sigma_c8_le :
    oil_sigma feedDefault equipmentDefault conditionsC8low ≤
    oil_sigma feedDefault equipmentDefault conditionsC8high := by
  unfold oil_sigma
  have hrt_eq : residence_time equipmentDefault conditionsC8low
      = residence_time equipmentDefault conditionsC8high := rfl
  rw [← hrt_eq]
  exact (div_le_div_iff_of_pos_right separation_dist_default_pos).mpr
    (mul_le_mul_of_nonneg_right oil_v_hindered_c8_le residence_time_c8_nonneg)

/-- The logistic sigma-to-efficiency map is monotone. -/
lemma logistic_base_mono (s1 s2 : ℝ) (h : s1 ≤ s2) :
    100 / (1 + Real.exp (-2.5 * (s1 - 1))) ≤ 100 / (1 + Real.exp (-2.5 * (s2 - 1))) := by
  have he : Real.exp (-2.5 * (s2 - 1)) ≤ Real.exp (-2.5 * (s1 - 1)) :=
    Real.exp_le_exp.mpr (by linarith)
  have h1 : (0 : ℝ) < 1 + Real.exp (-2.5 * (s2 - 1)) := by positivity
  have h2 : (0 : ℝ) < 1 + Real.exp (-2.5 * (s1 - 1)) := by positivity
  exact (div_le_div_iff_of_pos_left (by norm_num) h2 h1).mpr (by linarith)

lemma oil_eff_base_c8_le :
    oil_eff_base feedDefault equipmentDefault conditionsC8low ≤
    oil_eff_base feedDefault equipmentDefault conditionsC8high := by
  unfold oil_eff_base
  exact logistic_base_mono _ _ oil_sigma_c8_le

lemma flow_factor_of_flow12 (c : OperatingConditions) (h : c.feed_flow = 12) :
    flow_factor c = 0.92 := by
  have h1 : (1 : ℝ) - (c.feed_flow - 10) * 0.04 = 0.92 := by
    rw [h]
    norm_num
  unfold flow_factor
  rw [h1]
  exact max_eq_right (by norm_num)

/-- C8: with all inputs at their defaults except the temperature, the
reported oil efficiency at 70 °C is at least the reported oil
efficiency at 60 °C. -/
theorem c8_oil_efficiency_temp_monotone :
    (calculate_separation_efficiency feedDefault equipmentDefault
      conditionsC8low).oil_efficiency ≤
    (calculate_separation_efficiency feedDefault equipmentDefault
      conditionsC8high).oil_efficiency := by
  show roundTo 2 (oil_efficiency_raw feedDefault equipmentDefault conditionsC8low) ≤
    roundTo 2 (oil_efficiency_raw feedDefault equipmentDefault conditionsC8high)
  apply roundTo_mono
  unfold oil_efficiency_raw
  apply min_le_min le_rfl
  apply max_le_max le_rfl
  have hbase_le := oil_eff_base_c8_le
  have hbase_pos := oil_eff_base_pos feedDefault equipmentDefault conditionsC8low
  have hff_low : flow_factor conditionsC8low = 0.92 := flow_factor_of_flow12 _ rfl
  have hff_high : flow_factor conditionsC8high = 0.92 := flow_factor_of_flow12 _ rfl
  have hef : emulsion_factor feedDefault = 0.95275 :=
    emulsion_factor_default_chems feedDefault rfl rfl rfl rfl
  have htf_low : temp_factor conditionsC8low = 1 := by
    unfold temp_factor
    norm_num [conditionsC8low]
  have htf_high : temp_factor conditionsC8high = 1.08 := by
    unfold temp_factor
    norm_num [conditionsC8high]
  rw [hff_low, hff_high, hef, htf_low, htf_high]
  nlinarith [hbase_le, hbase_pos]
